import Mathlib

/-!
Verification of the Raydium swap pipeline in src/raydium.rs.

The development shallowly embeds the swap pipeline: RPC results, the random
account seed and the interactive confirmation answer are supplied by the
environment through a `Provider` record, panics are modelled by `Option`
(`none` = panic), and a `SwapOutcome` records the Rust return value together
with the observable effects of a run (the assembled instruction list, the
signed and submitted transaction, whether the diagnostic simulation ran, and
the log lines).
-/

set_option linter.unusedVariables false

namespace Listen

/-- Solana public keys, modelled by their base-58 string rendering; the code
compares mints through string equality against a constant. -/
abbrev Pubkey := String

/-- Modelled from the spec: src/constants.rs is not among the provided sources;
it exports the native-currency (wrapped SOL) mint identifier used by the
native-account check (spec §4.2, glossary "Native currency"). -/
def SOLANA_PROGRAM_ID : Pubkey := "So11111111111111111111111111111111111111112"

/-- The spl_token program id (external crate constant spl_token::id()). -/
def spl_token_id : Pubkey := "TokenkegQfeZyiNwAJbNbGKPFXCWuBvf9Ss623VQ5DA"

/-- Byte length of an SPL token account (spl_token::state::Account::LEN). -/
def ACCOUNT_LEN : Nat := 165

/-- Pubkey::create_with_seed from solana_sdk: a deterministic derivation from a
base key, a seed string and an owner program, modelled as an injective tagged
string. The unwrap in generate_pub_key is modelled as total. -/
def create_with_seed (base : Pubkey) (seed : String) (owner_program : Pubkey) : Pubkey :=
  "withSeed(" ++ base ++ "," ++ seed ++ "," ++ owner_program ++ ")"

/-- spl_associated_token_account::get_associated_token_address: the canonical
derived account address for an owner and a mint, modelled as an injective
tagged string. -/
def get_associated_token_address (owner mint : Pubkey) : Pubkey :=
  "ata(" ++ owner ++ "," ++ mint ++ ")"

/-- Direction of an AMM swap (raydium_library amm::utils::SwapDirection). -/
inductive SwapDirection where
  | Coin2PC
  | PC2Coin
deriving DecidableEq, Repr

/-- The instruction kinds the pipeline emits, each carrying the arguments the
source passes to the corresponding builder. -/
inductive Instruction where
  | setComputeUnitPrice (price : Nat)
  | setComputeUnitLimit (units : Nat)
  | createAccountWithSeed (funding token base : Pubkey) (seed : String)
      (lamports : Nat) (space : Nat) (owner_program : Pubkey)
  | initializeAccount (token_program token mint owner : Pubkey)
  | closeAccount (token destination owner : Pubkey)
  | createAtaIdempotent (funding mint owner : Pubkey)
  | ammSwap (amm_program : Pubkey) (coin_mint pc_mint market_program market : Pubkey)
      (market_id : Pubkey) (owner user_source user_destination : Pubkey)
      (amount_specified other_amount_threshold : Nat) (swap_base_in : Bool)
deriving DecidableEq, Repr

/-- Error kinds of the pipeline; each provider call returning Err carries a
message string, tagged here with the stage it arose from (in Rust all are boxed
into dyn Error, with the dynamic type distinguishing the sources). -/
inductive SwapError where
  | poolResolution (msg : String)
  | marketResolution (msg : String)
  | vaultSampling (msg : String)
  | quoteError
  | rentExemption (msg : String)
  | confirmPrompt (msg : String)
  | blockhashFetch (msg : String)
deriving DecidableEq, Repr

/-- Pool metadata returned by amm::utils::load_amm_keys (the fields the swap
path reads). -/
structure AmmKeys where
  amm_coin_mint : Pubkey
  amm_pc_mint : Pubkey
  market_program : Pubkey
  market : Pubkey
deriving DecidableEq, Repr

/-- Market metadata returned by amm::openbook::get_keys_for_market; the swap
path only threads it through to the instruction builder. -/
structure MarketKeys where
  market_id : Pubkey
deriving DecidableEq, Repr

/-- Vault reserve snapshot returned by amm::calculate_pool_vault_amounts. -/
structure CalculateResult where
  pool_pc_vault_amount : Nat
  pool_coin_vault_amount : Nat
  swap_fee_numerator : Nat
  swap_fee_denominator : Nat
deriving DecidableEq, Repr

/-- Result of the read-only diagnostic simulation RPC. -/
structure SimulationTrace where
  logs : List String
deriving DecidableEq, Repr

/-- A signing key; only its public key is observable in the embedding. -/
structure Keypair where
  pubkey : Pubkey
deriving DecidableEq, Repr

/-- The environment of one swap invocation: the result each external call
would produce, plus the random 32-character seeds drawn for the source and
destination native accounts and the answer of the interactive confirmation
prompt. Error payloads are the message strings of the failed calls. -/
structure Provider where
  load_amm_keys : Except String AmmKeys
  get_keys_for_market : Except String MarketKeys
  calculate_pool_vault_amounts : Except String CalculateResult
  rent_exemption : Except String Nat
  seed_source : String
  seed_dest : String
  confirm_answer : Except String Bool
  get_latest_blockhash : Except String String
  send_tx : Except String String
  simulate_transaction : Option SimulationTrace

/-- The mutable Swap state of src/raydium.rs (lines 17-20). -/
structure Swap where
  pre_swap_instructions : List Instruction
  post_swap_instructions : List Instruction
deriving DecidableEq, Repr

/-- make_compute_budget_ixs (lines 239-244): the priority-fee price instruction
followed by the compute-unit limit instruction. -/
def make_compute_budget_ixs (price : Nat) (units : Nat) : List Instruction :=
  [Instruction.setComputeUnitPrice price, Instruction.setComputeUnitLimit units]

/-- create_init_token (lines 207-233): create-account-with-seed funded with the
given lamports, followed by initialize-account for the mint. The unwrap on
initialize_account is modelled as total (it only fails on a non-token program
id, and the source always passes spl_token::id()). -/
def create_init_token (token : Pubkey) (seed : String) (mint owner funding : Pubkey)
    (lamports : Nat) : List Instruction :=
  [Instruction.createAccountWithSeed funding token owner seed lamports ACCOUNT_LEN spl_token_id,
   Instruction.initializeAccount spl_token_id token mint owner]

/-- generate_pub_key (lines 235-237). -/
def generate_pub_key (base : Pubkey) (seed : String) : Pubkey :=
  create_with_seed base seed spl_token_id

/-- raydium_library common::close_account (external collaborator, spec §4.2):
a single close-account instruction sending the account balance to the
destination. -/
def close_account (token destination owner : Pubkey) : List Instruction :=
  [Instruction.closeAccount token destination owner]

/-- raydium_library common::create_ata_token_or_not (external collaborator,
spec §4.2): the idempotent create-if-absent instruction for the associated
token account. -/
def create_ata_token_or_not (funding mint owner : Pubkey) : List Instruction :=
  [Instruction.createAtaIdempotent funding mint owner]

/-- handle_token_account (lines 173-205). The rent-exemption lookup result and
the random fresh seed are supplied by the environment. -/
def handle_token_account (swap : Swap) (rent : Except String Nat) (fresh_seed : String)
    (mint : Pubkey) (amount : Nat) (owner funding : Pubkey) :
    Except SwapError (Pubkey × Swap) :=
  if mint = SOLANA_PROGRAM_ID then
    match rent with
    | Except.error m => Except.error (SwapError.rentExemption m)
    | Except.ok rent =>
      let lamports := rent + amount
      let seed := fresh_seed
      let token := generate_pub_key owner seed
      let init_ixs := create_init_token token seed mint owner funding lamports
      let close_ixs := close_account token owner owner
      Except.ok (token,
        ⟨swap.pre_swap_instructions ++ init_ixs,
         swap.post_swap_instructions ++ close_ixs⟩)
  else
    let token := get_associated_token_address owner mint
    let ata_ixs := create_ata_token_or_not funding mint owner
    Except.ok (token,
      ⟨swap.pre_swap_instructions ++ ata_ixs, swap.post_swap_instructions⟩)

/-- Direction selection (lines 61-67): Coin2PC exactly when the input mint is
the pool coin mint and the output mint is the pool pc mint, else PC2Coin. -/
def swap_direction (input_token_mint output_token_mint amm_coin_mint amm_pc_mint : Pubkey) :
    SwapDirection :=
  if input_token_mint = amm_coin_mint ∧ output_token_mint = amm_pc_mint then
    SwapDirection.Coin2PC
  else
    SwapDirection.PC2Coin

/-- Modelled from the spec: raydium_library amm::swap_with_slippage is an
external crate function absent from src/; per spec §4.1 and §6 it applies the
pool constant-product-with-fee formula for the selected direction and widens
the resulting counter-amount by slippage_bps/10000 against the trader, and it
fails with QuoteError when a vault reserve is zero or the fee denominator is
missing. The pool mints are not among its inputs. -/
def swap_with_slippage (pool_pc_vault_amount pool_coin_vault_amount : Nat)
    (swap_fee_numerator swap_fee_denominator : Nat) (direction : SwapDirection)
    (amount_specified : Nat) (swap_base_in : Bool) (slippage_bps : Nat) :
    Except SwapError Nat :=
  if pool_pc_vault_amount = 0 ∨ pool_coin_vault_amount = 0 then
    Except.error SwapError.quoteError
  else if swap_fee_denominator = 0 then
    Except.error SwapError.quoteError
  else
    let reserves :=
      match direction with
      | SwapDirection.Coin2PC => (pool_coin_vault_amount, pool_pc_vault_amount)
      | SwapDirection.PC2Coin => (pool_pc_vault_amount, pool_coin_vault_amount)
    let in_reserve := reserves.1
    let out_reserve := reserves.2
    let other_amount :=
      if swap_base_in then
        let amount_with_fee :=
          amount_specified * (swap_fee_denominator - swap_fee_numerator) / swap_fee_denominator
        amount_with_fee * out_reserve / (in_reserve + amount_with_fee)
      else
        in_reserve * amount_specified * swap_fee_denominator /
          ((out_reserve - amount_specified) * (swap_fee_denominator - swap_fee_numerator))
    Except.ok
      (if swap_base_in then other_amount * (10000 - slippage_bps) / 10000
       else other_amount * (10000 + slippage_bps) / 10000)

/-- The quote step of Raydium::swap (lines 61-77): direction selection followed
by the external quote formula. Only vault reserves, fee parameters, direction,
amount and slippage bound are consulted. -/
def quote_step (amm_keys : AmmKeys) (result : CalculateResult)
    (input_token_mint output_token_mint : Pubkey) (amount_specified : Nat)
    (swap_base_in : Bool) (slippage_bps : Nat) : Except SwapError Nat :=
  swap_with_slippage result.pool_pc_vault_amount result.pool_coin_vault_amount
    result.swap_fee_numerator result.swap_fee_denominator
    (swap_direction input_token_mint output_token_mint
      amm_keys.amm_coin_mint amm_keys.amm_pc_mint)
    amount_specified swap_base_in slippage_bps

/-- amm::instructions::swap (external collaborator, spec §6
buildSwapInstruction): the single swap instruction over the resolved keys. -/
def build_swap_instruction (amm_program : Pubkey) (amm_keys : AmmKeys)
    (market_keys : MarketKeys) (owner user_source user_destination : Pubkey)
    (amount_specified other_amount_threshold : Nat) (swap_base_in : Bool) : Instruction :=
  Instruction.ammSwap amm_program amm_keys.amm_coin_mint amm_keys.amm_pc_mint
    amm_keys.market_program amm_keys.market market_keys.market_id
    owner user_source user_destination amount_specified other_amount_threshold swap_base_in

/-- A signed transaction (Transaction::new_signed_with_payer, line 150). -/
structure Transaction where
  instructions : List Instruction
  payer : Pubkey
  signers : List Pubkey
  blockhash : String
deriving DecidableEq, Repr

/-- The info line logged at line 127 (the human-readable float formatting of
the amount and the slippage percentage is elided). -/
def swap_info_message (amount_specified : Nat)
    (input_token_mint output_token_mint owner : Pubkey) : String :=
  s!"Swapping {amount_specified} of {input_token_mint} for {output_token_mint} by {owner}"

/-- The info line logged at line 158 on submission success. -/
def tx_success_message (signature : String) : String :=
  s!"Transaction {signature} successful"

/-- The error line logged at line 162 on submission failure. -/
def tx_failed_message (msg : String) : String :=
  s!"Transaction failed: {msg}"

/-- The info line logged at line 166 carrying the diagnostic simulation trace
(serde_json pretty-printing modelled as total). -/
def simulation_message (trace : SimulationTrace) : String :=
  "Simulation: " ++ String.intercalate "; " trace.logs

/-- Observable outcome of one swap invocation: result is the value Rust
returns to the caller; ixs is the assembled instruction list (line 121) when
assembly was reached; signed_tx and submitted_tx record the transaction that
was signed and handed to send_tx; simulated records whether the diagnostic
simulation ran; info_log and error_log are the log lines. -/
structure SwapOutcome where
  result : Except SwapError Unit
  ixs : Option (List (List Instruction))
  signed_tx : Option Transaction
  submitted_tx : Option Transaction
  simulated : Bool
  info_log : List String
  error_log : List String
deriving Repr

/-- Outcome of a failure before instruction assembly: the error propagates and
no effect has happened. -/
def SwapOutcome.failed (e : SwapError) : SwapOutcome :=
  ⟨Except.error e, none, none, none, false, [], []⟩

/-- Lines 142-169: the confirmation gate, transaction signing, submission, and
the diagnostic path. none models the panic of the unwrap at line 165 when the
diagnostic simulation RPC itself fails. -/
def submit_stage (provider : Provider) (wallet : Keypair) (confirmed : Bool)
    (ixs : List (List Instruction)) (log0 : List String) : Option SwapOutcome :=
  match (if confirmed then Except.ok true else provider.confirm_answer : Except String Bool) with
  | Except.error m =>
    some ⟨Except.error (SwapError.confirmPrompt m), some ixs, none, none, false, log0, []⟩
  | Except.ok false =>
    some ⟨Except.ok (), some ixs, none, none, false, log0, []⟩
  | Except.ok true =>
    match provider.get_latest_blockhash with
    | Except.error m =>
      some ⟨Except.error (SwapError.blockhashFetch m), some ixs, none, none, false, log0, []⟩
    | Except.ok blockhash =>
      let tx : Transaction := ⟨ixs.flatten, wallet.pubkey, [wallet.pubkey], blockhash⟩
      match provider.send_tx with
      | Except.ok signature =>
        some ⟨Except.ok (), some ixs, some tx, some tx, false,
              log0 ++ [tx_success_message signature], []⟩
      | Except.error m =>
        match provider.simulate_transaction with
        | none => none
        | some trace =>
          some ⟨Except.ok (), some ixs, some tx, some tx, true,
                log0 ++ [simulation_message trace], [tx_failed_message m]⟩

/-- Raydium::swap (lines 27-170). Returns none exactly when the unwrap on the
diagnostic simulate_transaction call (line 165) panics; otherwise some outcome
whose result field is the value the Rust function returns. The debug logging
and its serde_json serialization are modelled as total and not recorded. -/
def Raydium.swap (amm_program amm_pool_id : Pubkey)
    (input_token_mint output_token_mint : Pubkey)
    (slippage_bps amount_specified : Nat) (swap_base_in : Bool)
    (wallet : Keypair) (provider : Provider) (confirmed : Bool) :
    Option SwapOutcome :=
  match provider.load_amm_keys with
  | Except.error m => some (SwapOutcome.failed (SwapError.poolResolution m))
  | Except.ok amm_keys =>
  match provider.get_keys_for_market with
  | Except.error m => some (SwapOutcome.failed (SwapError.marketResolution m))
  | Except.ok market_keys =>
  match provider.calculate_pool_vault_amounts with
  | Except.error m => some (SwapOutcome.failed (SwapError.vaultSampling m))
  | Except.ok result =>
  match quote_step amm_keys result input_token_mint output_token_mint
      amount_specified swap_base_in slippage_bps with
  | Except.error e => some (SwapOutcome.failed e)
  | Except.ok other_amount_threshold =>
  match handle_token_account ⟨[], []⟩ provider.rent_exemption provider.seed_source
      input_token_mint amount_specified wallet.pubkey wallet.pubkey with
  | Except.error e => some (SwapOutcome.failed e)
  | Except.ok (user_source, swap1) =>
  match handle_token_account swap1 provider.rent_exemption provider.seed_dest
      output_token_mint 0 wallet.pubkey wallet.pubkey with
  | Except.error e => some (SwapOutcome.failed e)
  | Except.ok (user_destination, swap2) =>
  let swap_ix := build_swap_instruction amm_program amm_keys market_keys wallet.pubkey
    user_source user_destination amount_specified other_amount_threshold swap_base_in
  let ixs := [make_compute_budget_ixs 25000 600000,
              swap2.pre_swap_instructions, [swap_ix], swap2.post_swap_instructions]
  submit_stage provider wallet confirmed ixs
    [swap_info_message amount_specified input_token_mint output_token_mint wallet.pubkey]

/-- The pre-swap instructions one handle_token_account call appends for a mint:
the creation pair for the native mint, the create-if-absent instruction
otherwise. -/
def account_pre_ixs (rent : Nat) (fresh_seed : String) (mint : Pubkey) (amount : Nat)
    (owner funding : Pubkey) : List Instruction :=
  if mint = SOLANA_PROGRAM_ID then
    create_init_token (generate_pub_key owner fresh_seed) fresh_seed mint owner funding
      (rent + amount)
  else
    create_ata_token_or_not funding mint owner

/-- The post-swap instructions one handle_token_account call appends for a
mint: the close instruction for the native mint, nothing otherwise. -/
def account_post_ixs (fresh_seed : String) (mint owner : Pubkey) : List Instruction :=
  if mint = SOLANA_PROGRAM_ID then
    close_account (generate_pub_key owner fresh_seed) owner owner
  else
    []

/-- The account address handle_token_account returns for a mint. -/
def token_account_address (fresh_seed : String) (mint owner : Pubkey) : Pubkey :=
  if mint = SOLANA_PROGRAM_ID then generate_pub_key owner fresh_seed
  else get_associated_token_address owner mint

theorem handle_token_account_ok (s : Swap) (rent : Nat) (fresh_seed : String)
    (mint : Pubkey) (amount : Nat) (owner funding : Pubkey) :
    handle_token_account s (Except.ok rent) fresh_seed mint amount owner funding =
      Except.ok (token_account_address fresh_seed mint owner,
        ⟨s.pre_swap_instructions ++ account_pre_ixs rent fresh_seed mint amount owner funding,
         s.post_swap_instructions ++ account_post_ixs fresh_seed mint owner⟩) := by
  by_cases h : mint = SOLANA_PROGRAM_ID <;>
    simp [handle_token_account, token_account_address, account_pre_ixs, account_post_ixs, h]

theorem submit_stage_ixs (provider : Provider) (wallet : Keypair) (confirmed : Bool)
    (ixs : List (List Instruction)) (log0 : List String) (o : SwapOutcome)
    (h : submit_stage provider wallet confirmed ixs log0 = some o) :
    o.ixs = some ixs := by
  unfold submit_stage at h
  repeat' split at h
  all_goals (first | (injection h with h2; subst h2; rfl) | injection h)

theorem submit_stage_declined (provider : Provider) (wallet : Keypair)
    (ixs : List (List Instruction)) (log0 : List String)
    (hanswer : provider.confirm_answer = Except.ok false) :
    submit_stage provider wallet false ixs log0 =
      some ⟨Except.ok (), some ixs, none, none, false, log0, []⟩ := by
  simp [submit_stage, hanswer]

theorem submit_stage_sent (provider : Provider) (wallet : Keypair)
    (ixs : List (List Instruction)) (log0 : List String) (blockhash signature : String)
    (hbh : provider.get_latest_blockhash = Except.ok blockhash)
    (hsend : provider.send_tx = Except.ok signature) :
    submit_stage provider wallet true ixs log0 =
      some ⟨Except.ok (), some ixs,
            some ⟨ixs.flatten, wallet.pubkey, [wallet.pubkey], blockhash⟩,
            some ⟨ixs.flatten, wallet.pubkey, [wallet.pubkey], blockhash⟩,
            false, log0 ++ [tx_success_message signature], []⟩ := by
  simp [submit_stage, hbh, hsend]

theorem submit_stage_panic (provider : Provider) (wallet : Keypair)
    (ixs : List (List Instruction)) (log0 : List String) (blockhash m : String)
    (hbh : provider.get_latest_blockhash = Except.ok blockhash)
    (hsend : provider.send_tx = Except.error m)
    (hsim : provider.simulate_transaction = none) :
    submit_stage provider wallet true ixs log0 = none := by
  simp [submit_stage, hbh, hsend, hsim]

/-- C2 counterexample: for the pool with coin mint COIN and pc mint PC, the
input/output pair (X, Y) belongs to the pool on neither side, yet the quote
step succeeds with a threshold instead of failing with a QuoteError. -/
theorem C2_counterexample :
    quote_step ⟨"COIN", "PC", "MP", "MK"⟩ ⟨1000, 1000, 25, 10000⟩ "X" "Y" 500 false 50 =
      Except.ok 1007 ∧
    ("X" : Pubkey) ≠ "COIN" ∧ ("X" : Pubkey) ≠ "PC" ∧
    ("Y" : Pubkey) ≠ "COIN" ∧ ("Y" : Pubkey) ≠ "PC" := by
  refine ⟨rfl, ?_, ?_, ?_, ?_⟩ <;> decide

/-- C2 amended: the quote step performs no mint-membership validation; whenever
the pair is not exactly (coin mint, pc mint) it simply selects the PC2Coin
direction, and with nonzero vault reserves and a nonzero fee denominator it
produces a threshold rather than a QuoteError. -/
theorem C2_quote_ignores_mints (amm_keys : AmmKeys) (result : CalculateResult)
    (input_token_mint output_token_mint : Pubkey) (amount_specified : Nat)
    (swap_base_in : Bool) (slippage_bps : Nat)
    (hmints : ¬(input_token_mint = amm_keys.amm_coin_mint ∧
        output_token_mint = amm_keys.amm_pc_mint))
    (hpc : result.pool_pc_vault_amount ≠ 0) (hcoin : result.pool_coin_vault_amount ≠ 0)
    (hfee : result.swap_fee_denominator ≠ 0) :
    swap_direction input_token_mint output_token_mint
        amm_keys.amm_coin_mint amm_keys.amm_pc_mint = SwapDirection.PC2Coin ∧
    ∃ t, quote_step amm_keys result input_token_mint output_token_mint
        amount_specified swap_base_in slippage_bps = Except.ok t := by
  constructor
  · simp [swap_direction, hmints]
  · simp [quote_step, swap_with_slippage, hpc, hcoin, hfee]

theorem C2_quote_ignores_mints_witness :
    swap_direction "X" "Y" "COIN" "PC" = SwapDirection.PC2Coin ∧
    ∃ t, quote_step ⟨"COIN", "PC", "MP", "MK"⟩ ⟨1000, 1000, 25, 10000⟩ "X" "Y" 500 false 50 =
      Except.ok t :=
  C2_quote_ignores_mints ⟨"COIN", "PC", "MP", "MK"⟩ ⟨1000, 1000, 25, 10000⟩ "X" "Y" 500
    false 50 (by decide) (by decide) (by decide) (by decide)

/-- C3 counterexample: with the input mint equal to the pool coin mint but the
output mint not the pc mint, the code selects PC2Coin, while the claim predicts
Coin2PC for every call whose input mint equals the coin mint. -/
theorem C3_counterexample :
    swap_direction "COIN" "OTHER" "COIN" "PC" = SwapDirection.PC2Coin ∧
    ("COIN" : Pubkey) = "COIN" ∧ SwapDirection.PC2Coin ≠ SwapDirection.Coin2PC := by
  refine ⟨by decide, rfl, by decide⟩

/-- C3 amended: the direction is Coin2PC exactly when the input mint equals the
pool coin mint and the output mint equals the pool pc mint; in every other case
(including input = coin mint with a non-pc output) it is PC2Coin. -/
theorem C3_direction_iff (input_token_mint output_token_mint amm_coin_mint
    amm_pc_mint : Pubkey) :
    swap_direction input_token_mint output_token_mint amm_coin_mint amm_pc_mint =
        SwapDirection.Coin2PC ↔
      (input_token_mint = amm_coin_mint ∧ output_token_mint = amm_pc_mint) := by
  unfold swap_direction
  split <;> simp_all

theorem C3_direction_iff_witness :
    swap_direction "COIN" "PC2" "COIN" "PC" = SwapDirection.Coin2PC ↔
      (("COIN" : Pubkey) = "COIN" ∧ ("PC2" : Pubkey) = "PC") :=
  C3_direction_iff "COIN" "PC2" "COIN" "PC"

/-- C5: for the native-currency mint, handle_token_account appends exactly the
creation pair — create-account-with-seed funded with the rent-exempt minimum
plus the trade amount, then initialize-account for the native mint — to the
pre-swap instructions and exactly one close-account instruction returning the
balance to the owner to the post-swap instructions. -/
theorem C5_native_account_pair (s : Swap) (rent : Nat) (fresh_seed : String)
    (mint : Pubkey) (amount : Nat) (owner funding : Pubkey)
    (hmint : mint = SOLANA_PROGRAM_ID) :
    handle_token_account s (Except.ok rent) fresh_seed mint amount owner funding =
      Except.ok (generate_pub_key owner fresh_seed,
        ⟨s.pre_swap_instructions ++
          [Instruction.createAccountWithSeed funding (generate_pub_key owner fresh_seed)
             owner fresh_seed (rent + amount) ACCOUNT_LEN spl_token_id,
           Instruction.initializeAccount spl_token_id (generate_pub_key owner fresh_seed)
             mint owner],
         s.post_swap_instructions ++
          [Instruction.closeAccount (generate_pub_key owner fresh_seed) owner owner]⟩) := by
  subst hmint
  simp [handle_token_account, create_init_token, close_account]

theorem C5_native_account_pair_witness :
    handle_token_account ⟨[], []⟩ (Except.ok 2039280) "SEED1" SOLANA_PROGRAM_ID
        1000000000 "OWNER" "OWNER" =
      Except.ok (generate_pub_key "OWNER" "SEED1",
        ⟨[Instruction.createAccountWithSeed "OWNER" (generate_pub_key "OWNER" "SEED1")
            "OWNER" "SEED1" (2039280 + 1000000000) ACCOUNT_LEN spl_token_id,
          Instruction.initializeAccount spl_token_id (generate_pub_key "OWNER" "SEED1")
            SOLANA_PROGRAM_ID "OWNER"],
         [Instruction.closeAccount (generate_pub_key "OWNER" "SEED1") "OWNER" "OWNER"]⟩) := by
  have h := C5_native_account_pair ⟨[], []⟩ 2039280 "SEED1" SOLANA_PROGRAM_ID 1000000000
    "OWNER" "OWNER" rfl
  simpa using h

/-- C6: for a standard (non-native) mint, handle_token_account returns the
canonical associated token address for (owner, mint), appends only the
create-if-absent instruction to the pre-swap instructions, and leaves the
post-swap instruction list unchanged. -/
theorem C6_standard_account (s : Swap) (rent : Except String Nat) (fresh_seed : String)
    (mint : Pubkey) (amount : Nat) (owner funding : Pubkey)
    (hmint : mint ≠ SOLANA_PROGRAM_ID) :
    handle_token_account s rent fresh_seed mint amount owner funding =
      Except.ok (get_associated_token_address owner mint,
        ⟨s.pre_swap_instructions ++ [Instruction.createAtaIdempotent funding mint owner],
         s.post_swap_instructions⟩) := by
  simp [handle_token_account, create_ata_token_or_not, hmint]

theorem C6_standard_account_witness :
    handle_token_account ⟨[], []⟩ (Except.ok 2039280) "SEED1" "TOKX" 500 "OWNER" "OWNER" =
      Except.ok (get_associated_token_address "OWNER" "TOKX",
        ⟨[Instruction.createAtaIdempotent "OWNER" "TOKX" "OWNER"], []⟩) := by
  have h := C6_standard_account ⟨[], []⟩ (Except.ok 2039280) "SEED1" "TOKX" 500
    "OWNER" "OWNER" (by decide)
  simpa using h

/-- C1: at a concrete input where transaction submission fails, swap records
the diagnostic simulation trace and logs the failure, yet returns the success
value Ok(()) to the caller — the code reports success on a submission failure,
contradicting the claim that the failure is surfaced as a failing result. -/
theorem C1_submission_failure_reports_success :
    ∃ o, Raydium.swap "AMMPROG" "POOL" "TOKX" "TOKY" 50 500 false ⟨"WALLET"⟩
        ⟨Except.ok ⟨"TOKX", "TOKY", "MP", "MKT"⟩, Except.ok ⟨"MKTID"⟩,
         Except.ok ⟨1000, 1000, 25, 10000⟩, Except.ok 2039280, "SEEDSRC", "SEEDDST",
         Except.ok true, Except.ok "HASH", Except.error "rejected",
         some ⟨["program log line"]⟩⟩ true = some o ∧
      o.result = Except.ok () ∧ o.simulated = true ∧
      o.submitted_tx ≠ none ∧ o.error_log ≠ [] := by
  refine ⟨_, rfl, rfl, rfl, ?_, ?_⟩ <;> simp

/-- C4: whenever a run of swap assembles its instruction list, that list is, in
this exact order: the compute-budget pair (priority-fee price then compute-unit
limit), the source account pre-swap instructions, the destination account
pre-swap instructions, the single swap instruction, then the source and
destination post-swap instructions, with each block kept in its input order. -/
theorem C4_assembly_order (amm_program amm_pool_id input_token_mint
      output_token_mint : Pubkey) (slippage_bps amount_specified : Nat)
    (swap_base_in : Bool) (wallet : Keypair) (provider : Provider) (confirmed : Bool)
    (amm_keys : AmmKeys) (market_keys : MarketKeys) (result : CalculateResult)
    (threshold rent : Nat)
    (hkeys : provider.load_amm_keys = Except.ok amm_keys)
    (hmkt : provider.get_keys_for_market = Except.ok market_keys)
    (hvault : provider.calculate_pool_vault_amounts = Except.ok result)
    (hquote : quote_step amm_keys result input_token_mint output_token_mint
        amount_specified swap_base_in slippage_bps = Except.ok threshold)
    (hrent : provider.rent_exemption = Except.ok rent) :
    ∀ o, Raydium.swap amm_program amm_pool_id input_token_mint output_token_mint
        slippage_bps amount_specified swap_base_in wallet provider confirmed = some o →
      ∃ l, o.ixs = some l ∧
        l.flatten =
          Instruction.setComputeUnitPrice 25000 :: Instruction.setComputeUnitLimit 600000 ::
            (account_pre_ixs rent provider.seed_source input_token_mint amount_specified
                wallet.pubkey wallet.pubkey ++
             account_pre_ixs rent provider.seed_dest output_token_mint 0
                wallet.pubkey wallet.pubkey ++
             [build_swap_instruction amm_program amm_keys market_keys wallet.pubkey
                (token_account_address provider.seed_source input_token_mint wallet.pubkey)
                (token_account_address provider.seed_dest output_token_mint wallet.pubkey)
                amount_specified threshold swap_base_in] ++
             account_post_ixs provider.seed_source input_token_mint wallet.pubkey ++
             account_post_ixs provider.seed_dest output_token_mint wallet.pubkey) := by
  intro o ho
  simp only [Raydium.swap, hkeys, hmkt, hvault, hquote, hrent,
    handle_token_account_ok, List.nil_append] at ho
  refine ⟨_, submit_stage_ixs _ _ _ _ _ _ ho, ?_⟩
  simp [make_compute_budget_ixs]

/-- C7: when the confirmed flag is false and the interactive prompt answers
false, swap cancels after the gate: it returns the success value immediately,
no transaction is constructed or signed, nothing is submitted, no diagnostic
simulation runs, and no error is logged. -/
theorem C7_gate_declined (amm_program amm_pool_id input_token_mint
      output_token_mint : Pubkey) (slippage_bps amount_specified : Nat)
    (swap_base_in : Bool) (wallet : Keypair) (provider : Provider)
    (amm_keys : AmmKeys) (market_keys : MarketKeys) (result : CalculateResult)
    (threshold rent : Nat)
    (hkeys : provider.load_amm_keys = Except.ok amm_keys)
    (hmkt : provider.get_keys_for_market = Except.ok market_keys)
    (hvault : provider.calculate_pool_vault_amounts = Except.ok result)
    (hquote : quote_step amm_keys result input_token_mint output_token_mint
        amount_specified swap_base_in slippage_bps = Except.ok threshold)
    (hrent : provider.rent_exemption = Except.ok rent)
    (hanswer : provider.confirm_answer = Except.ok false) :
    Raydium.swap amm_program amm_pool_id input_token_mint output_token_mint
        slippage_bps amount_specified swap_base_in wallet provider false =
      some ⟨Except.ok (),
        some [make_compute_budget_ixs 25000 600000,
              account_pre_ixs rent provider.seed_source input_token_mint
                  amount_specified wallet.pubkey wallet.pubkey ++
                account_pre_ixs rent provider.seed_dest output_token_mint 0
                  wallet.pubkey wallet.pubkey,
              [build_swap_instruction amm_program amm_keys market_keys wallet.pubkey
                 (token_account_address provider.seed_source input_token_mint wallet.pubkey)
                 (token_account_address provider.seed_dest output_token_mint wallet.pubkey)
                 amount_specified threshold swap_base_in],
              account_post_ixs provider.seed_source input_token_mint wallet.pubkey ++
                account_post_ixs provider.seed_dest output_token_mint wallet.pubkey],
        none, none, false,
        [swap_info_message amount_specified input_token_mint output_token_mint
           wallet.pubkey], []⟩ := by
  simp only [Raydium.swap, hkeys, hmkt, hvault, hquote, hrent,
    handle_token_account_ok, List.nil_append]
  exact submit_stage_declined provider wallet _ _ hanswer

/-- C8: a failure of pool resolution, market resolution, vault sampling, the
quote step (for instance on zero reserves), or the rent lookup of
token-account preparation (for the source or the destination account)
propagates that stage's error to the caller as the result, with no effects:
no instruction list is assembled, nothing is signed, submitted or simulated,
and nothing is logged. -/
theorem C8_early_failure_propagates (amm_program amm_pool_id input_token_mint
      output_token_mint : Pubkey) (slippage_bps amount_specified : Nat)
    (swap_base_in : Bool) (wallet : Keypair) (provider : Provider) (confirmed : Bool) :
    (∀ m, provider.load_amm_keys = Except.error m →
      Raydium.swap amm_program amm_pool_id input_token_mint output_token_mint
          slippage_bps amount_specified swap_base_in wallet provider confirmed =
        some (SwapOutcome.failed (SwapError.poolResolution m))) ∧
    (∀ amm_keys m, provider.load_amm_keys = Except.ok amm_keys →
      provider.get_keys_for_market = Except.error m →
      Raydium.swap amm_program amm_pool_id input_token_mint output_token_mint
          slippage_bps amount_specified swap_base_in wallet provider confirmed =
        some (SwapOutcome.failed (SwapError.marketResolution m))) ∧
    (∀ amm_keys market_keys m, provider.load_amm_keys = Except.ok amm_keys →
      provider.get_keys_for_market = Except.ok market_keys →
      provider.calculate_pool_vault_amounts = Except.error m →
      Raydium.swap amm_program amm_pool_id input_token_mint output_token_mint
          slippage_bps amount_specified swap_base_in wallet provider confirmed =
        some (SwapOutcome.failed (SwapError.vaultSampling m))) ∧
    (∀ amm_keys market_keys result e, provider.load_amm_keys = Except.ok amm_keys →
      provider.get_keys_for_market = Except.ok market_keys →
      provider.calculate_pool_vault_amounts = Except.ok result →
      quote_step amm_keys result input_token_mint output_token_mint
          amount_specified swap_base_in slippage_bps = Except.error e →
      Raydium.swap amm_program amm_pool_id input_token_mint output_token_mint
          slippage_bps amount_specified swap_base_in wallet provider confirmed =
        some (SwapOutcome.failed e)) ∧
    (∀ amm_keys market_keys result threshold m,
      provider.load_amm_keys = Except.ok amm_keys →
      provider.get_keys_for_market = Except.ok market_keys →
      provider.calculate_pool_vault_amounts = Except.ok result →
      quote_step amm_keys result input_token_mint output_token_mint
          amount_specified swap_base_in slippage_bps = Except.ok threshold →
      input_token_mint = SOLANA_PROGRAM_ID →
      provider.rent_exemption = Except.error m →
      Raydium.swap amm_program amm_pool_id input_token_mint output_token_mint
          slippage_bps amount_specified swap_base_in wallet provider confirmed =
        some (SwapOutcome.failed (SwapError.rentExemption m))) ∧
    (∀ amm_keys market_keys result threshold m,
      provider.load_amm_keys = Except.ok amm_keys →
      provider.get_keys_for_market = Except.ok market_keys →
      provider.calculate_pool_vault_amounts = Except.ok result →
      quote_step amm_keys result input_token_mint output_token_mint
          amount_specified swap_base_in slippage_bps = Except.ok threshold →
      input_token_mint ≠ SOLANA_PROGRAM_ID →
      output_token_mint = SOLANA_PROGRAM_ID →
      provider.rent_exemption = Except.error m →
      Raydium.swap amm_program amm_pool_id input_token_mint output_token_mint
          slippage_bps amount_specified swap_base_in wallet provider confirmed =
        some (SwapOutcome.failed (SwapError.rentExemption m))) := by
  refine ⟨?_, ?_, ?_, ?_, ?_, ?_⟩
  · intro m h1
    simp [Raydium.swap, h1]
  · intro amm_keys m h1 h2
    simp [Raydium.swap, h1, h2]
  · intro amm_keys market_keys m h1 h2 h3
    simp [Raydium.swap, h1, h2, h3]
  · intro amm_keys market_keys result e h1 h2 h3 h4
    simp [Raydium.swap, h1, h2, h3, h4]
  · intro amm_keys market_keys result threshold m h1 h2 h3 h4 h5 h6
    subst h5
    simp [Raydium.swap, h1, h2, h3, h4, h6, handle_token_account]
  · intro amm_keys market_keys result threshold m h1 h2 h3 h4 h5 h6 h7
    subst h6
    simp [Raydium.swap, h1, h2, h3, h4, h5, h7, handle_token_account]

theorem C8_early_failure_propagates_witness :
    Raydium.swap "AMMPROG" "POOL" "TOKX" "TOKY" 50 500 false ⟨"WALLET"⟩
        ⟨Except.ok ⟨"TOKX", "TOKY", "MP", "MKT"⟩, Except.ok ⟨"MKTID"⟩,
         Except.ok ⟨0, 0, 25, 10000⟩, Except.ok 2039280, "SEEDSRC", "SEEDDST",
         Except.ok true, Except.ok "HASH", Except.ok "SIG", none⟩ true =
      some (SwapOutcome.failed SwapError.quoteError) :=
  (C8_early_failure_propagates "AMMPROG" "POOL" "TOKX" "TOKY" 50 500 false ⟨"WALLET"⟩
      ⟨Except.ok ⟨"TOKX", "TOKY", "MP", "MKT"⟩, Except.ok ⟨"MKTID"⟩,
       Except.ok ⟨0, 0, 25, 10000⟩, Except.ok 2039280, "SEEDSRC", "SEEDDST",
       Except.ok true, Except.ok "HASH", Except.ok "SIG", none⟩ true).2.2.2.1
    ⟨"TOKX", "TOKY", "MP", "MKT"⟩ ⟨"MKTID"⟩ ⟨0, 0, 25, 10000⟩ SwapError.quoteError
    rfl rfl rfl rfl

/-- C9 counterexample: two runs identical except for the transaction identifier
the network returns produce the same caller-visible result, the bare success
value Ok(()); the identifier is therefore not reported as part of the result —
it only appears in the log, which is where the two runs differ. -/
theorem C9_counterexample :
    ∃ oA oB, Raydium.swap "AMMPROG" "POOL" "TOKX" "TOKY" 50 500 false ⟨"WALLET"⟩
        ⟨Except.ok ⟨"TOKX", "TOKY", "MP", "MKT"⟩, Except.ok ⟨"MKTID"⟩,
         Except.ok ⟨1000, 1000, 25, 10000⟩, Except.ok 2039280, "SEEDSRC", "SEEDDST",
         Except.ok true, Except.ok "HASH", Except.ok "SIGNATUREA", none⟩ true = some oA ∧
      Raydium.swap "AMMPROG" "POOL" "TOKX" "TOKY" 50 500 false ⟨"WALLET"⟩
        ⟨Except.ok ⟨"TOKX", "TOKY", "MP", "MKT"⟩, Except.ok ⟨"MKTID"⟩,
         Except.ok ⟨1000, 1000, 25, 10000⟩, Except.ok 2039280, "SEEDSRC", "SEEDDST",
         Except.ok true, Except.ok "HASH", Except.ok "SIGNATUREB", none⟩ true = some oB ∧
      oA.result = Except.ok () ∧ oB.result = Except.ok () ∧ oA.result = oB.result ∧
      oA.info_log ≠ oB.info_log := by
  refine ⟨_, _, rfl, rfl, rfl, rfl, rfl, ?_⟩
  decide

/-- C9 amended: on submission success swap returns the bare success value
Ok(()) to the caller and reports the transaction identifier only through its
info log. -/
theorem C9_success_logs_identifier (amm_program amm_pool_id input_token_mint
      output_token_mint : Pubkey) (slippage_bps amount_specified : Nat)
    (swap_base_in : Bool) (wallet : Keypair) (provider : Provider)
    (amm_keys : AmmKeys) (market_keys : MarketKeys) (result : CalculateResult)
    (threshold rent : Nat) (blockhash signature : String)
    (hkeys : provider.load_amm_keys = Except.ok amm_keys)
    (hmkt : provider.get_keys_for_market = Except.ok market_keys)
    (hvault : provider.calculate_pool_vault_amounts = Except.ok result)
    (hquote : quote_step amm_keys result input_token_mint output_token_mint
        amount_specified swap_base_in slippage_bps = Except.ok threshold)
    (hrent : provider.rent_exemption = Except.ok rent)
    (hbh : provider.get_latest_blockhash = Except.ok blockhash)
    (hsend : provider.send_tx = Except.ok signature) :
    ∀ o, Raydium.swap amm_program amm_pool_id input_token_mint output_token_mint
        slippage_bps amount_specified swap_base_in wallet provider true = some o →
      o.result = Except.ok () ∧
      o.info_log = [swap_info_message amount_specified input_token_mint
                      output_token_mint wallet.pubkey,
                    tx_success_message signature] ∧
      o.submitted_tx ≠ none := by
  intro o ho
  simp only [Raydium.swap, hkeys, hmkt, hvault, hquote, hrent,
    handle_token_account_ok, List.nil_append] at ho
  rw [submit_stage_sent provider wallet _ _ blockhash signature hbh hsend] at ho
  injection ho with ho2
  subst ho2
  refine ⟨rfl, rfl, by simp⟩

/-- C10: on the submission-failure path, if the diagnostic simulation RPC
itself fails, swap panics (the unwrap at line 165): the run produces no
outcome at all, so the simulation call succeeding is a precondition of that
branch. -/
theorem C10_simulation_unwrap_panics (amm_program amm_pool_id input_token_mint
      output_token_mint : Pubkey) (slippage_bps amount_specified : Nat)
    (swap_base_in : Bool) (wallet : Keypair) (provider : Provider)
    (amm_keys : AmmKeys) (market_keys : MarketKeys) (result : CalculateResult)
    (threshold rent : Nat) (blockhash m : String)
    (hkeys : provider.load_amm_keys = Except.ok amm_keys)
    (hmkt : provider.get_keys_for_market = Except.ok market_keys)
    (hvault : provider.calculate_pool_vault_amounts = Except.ok result)
    (hquote : quote_step amm_keys result input_token_mint output_token_mint
        amount_specified swap_base_in slippage_bps = Except.ok threshold)
    (hrent : provider.rent_exemption = Except.ok rent)
    (hbh : provider.get_latest_blockhash = Except.ok blockhash)
    (hsend : provider.send_tx = Except.error m)
    (hsim : provider.simulate_transaction = none) :
    Raydium.swap amm_program amm_pool_id input_token_mint output_token_mint
        slippage_bps amount_specified swap_base_in wallet provider true = none := by
  simp only [Raydium.swap, hkeys, hmkt, hvault, hquote, hrent,
    handle_token_account_ok, List.nil_append]
  exact submit_stage_panic provider wallet _ _ blockhash m hbh hsend hsim

theorem C4_assembly_order_witness :
    ∃ o, Raydium.swap "AMMPROG" "POOL" "TOKX" "TOKY" 50 500 false ⟨"WALLET"⟩
        ⟨Except.ok ⟨"TOKX", "TOKY", "MP", "MKT"⟩, Except.ok ⟨"MKTID"⟩,
         Except.ok ⟨1000, 1000, 25, 10000⟩, Except.ok 2039280, "SEEDSRC", "SEEDDST",
         Except.ok true, Except.ok "HASH", Except.ok "SIG", none⟩ true = some o ∧
      ∃ l, o.ixs = some l ∧
        l.flatten =
          Instruction.setComputeUnitPrice 25000 :: Instruction.setComputeUnitLimit 600000 ::
            (account_pre_ixs 2039280 "SEEDSRC" "TOKX" 500 "WALLET" "WALLET" ++
             account_pre_ixs 2039280 "SEEDDST" "TOKY" 0 "WALLET" "WALLET" ++
             [build_swap_instruction "AMMPROG" ⟨"TOKX", "TOKY", "MP", "MKT"⟩ ⟨"MKTID"⟩
                "WALLET" (token_account_address "SEEDSRC" "TOKX" "WALLET")
                (token_account_address "SEEDDST" "TOKY" "WALLET") 500 1007 false] ++
             account_post_ixs "SEEDSRC" "TOKX" "WALLET" ++
             account_post_ixs "SEEDDST" "TOKY" "WALLET") :=
  ⟨_, rfl, C4_assembly_order "AMMPROG" "POOL" "TOKX" "TOKY" 50 500 false ⟨"WALLET"⟩
    ⟨Except.ok ⟨"TOKX", "TOKY", "MP", "MKT"⟩, Except.ok ⟨"MKTID"⟩,
     Except.ok ⟨1000, 1000, 25, 10000⟩, Except.ok 2039280, "SEEDSRC", "SEEDDST",
     Except.ok true, Except.ok "HASH", Except.ok "SIG", none⟩ true
    ⟨"TOKX", "TOKY", "MP", "MKT"⟩ ⟨"MKTID"⟩ ⟨1000, 1000, 25, 10000⟩ 1007 2039280
    rfl rfl rfl rfl rfl _ rfl⟩

theorem C7_gate_declined_witness :
    Raydium.swap "AMMPROG" "POOL" "TOKX" "TOKY" 50 500 false ⟨"WALLET"⟩
        ⟨Except.ok ⟨"TOKX", "TOKY", "MP", "MKT"⟩, Except.ok ⟨"MKTID"⟩,
         Except.ok ⟨1000, 1000, 25, 10000⟩, Except.ok 2039280, "SEEDSRC", "SEEDDST",
         Except.ok false, Except.ok "HASH", Except.ok "SIG", none⟩ false =
      some ⟨Except.ok (),
        some [make_compute_budget_ixs 25000 600000,
              account_pre_ixs 2039280 "SEEDSRC" "TOKX" 500 "WALLET" "WALLET" ++
                account_pre_ixs 2039280 "SEEDDST" "TOKY" 0 "WALLET" "WALLET",
              [build_swap_instruction "AMMPROG" ⟨"TOKX", "TOKY", "MP", "MKT"⟩ ⟨"MKTID"⟩
                 "WALLET" (token_account_address "SEEDSRC" "TOKX" "WALLET")
                 (token_account_address "SEEDDST" "TOKY" "WALLET") 500 1007 false],
              account_post_ixs "SEEDSRC" "TOKX" "WALLET" ++
                account_post_ixs "SEEDDST" "TOKY" "WALLET"],
        none, none, false, [swap_info_message 500 "TOKX" "TOKY" "WALLET"], []⟩ :=
  C7_gate_declined "AMMPROG" "POOL" "TOKX" "TOKY" 50 500 false ⟨"WALLET"⟩
    ⟨Except.ok ⟨"TOKX", "TOKY", "MP", "MKT"⟩, Except.ok ⟨"MKTID"⟩,
     Except.ok ⟨1000, 1000, 25, 10000⟩, Except.ok 2039280, "SEEDSRC", "SEEDDST",
     Except.ok false, Except.ok "HASH", Except.ok "SIG", none⟩
    ⟨"TOKX", "TOKY", "MP", "MKT"⟩ ⟨"MKTID"⟩ ⟨1000, 1000, 25, 10000⟩ 1007 2039280
    rfl rfl rfl rfl rfl rfl

theorem C9_success_logs_identifier_witness :
    ∃ o, Raydium.swap "AMMPROG" "POOL" "TOKX" "TOKY" 50 500 false ⟨"WALLET"⟩
        ⟨Except.ok ⟨"TOKX", "TOKY", "MP", "MKT"⟩, Except.ok ⟨"MKTID"⟩,
         Except.ok ⟨1000, 1000, 25, 10000⟩, Except.ok 2039280, "SEEDSRC", "SEEDDST",
         Except.ok true, Except.ok "HASH", Except.ok "SIG", none⟩ true = some o ∧
      o.result = Except.ok () ∧
      o.info_log = [swap_info_message 500 "TOKX" "TOKY" "WALLET",
                    tx_success_message "SIG"] ∧
      o.submitted_tx ≠ none :=
  ⟨_, rfl, C9_success_logs_identifier "AMMPROG" "POOL" "TOKX" "TOKY" 50 500 false
    ⟨"WALLET"⟩
    ⟨Except.ok ⟨"TOKX", "TOKY", "MP", "MKT"⟩, Except.ok ⟨"MKTID"⟩,
     Except.ok ⟨1000, 1000, 25, 10000⟩, Except.ok 2039280, "SEEDSRC", "SEEDDST",
     Except.ok true, Except.ok "HASH", Except.ok "SIG", none⟩
    ⟨"TOKX", "TOKY", "MP", "MKT"⟩ ⟨"MKTID"⟩ ⟨1000, 1000, 25, 10000⟩ 1007 2039280
    "HASH" "SIG" rfl rfl rfl rfl rfl rfl rfl _ rfl⟩

theorem C10_simulation_unwrap_panics_witness :
    Raydium.swap "AMMPROG" "POOL" "TOKX" "TOKY" 50 500 false ⟨"WALLET"⟩
        ⟨Except.ok ⟨"TOKX", "TOKY", "MP", "MKT"⟩, Except.ok ⟨"MKTID"⟩,
         Except.ok ⟨1000, 1000, 25, 10000⟩, Except.ok 2039280, "SEEDSRC", "SEEDDST",
         Except.ok true, Except.ok "HASH", Except.error "rejected", none⟩ true = none :=
  C10_simulation_unwrap_panics "AMMPROG" "POOL" "TOKX" "TOKY" 50 500 false ⟨"WALLET"⟩
    ⟨Except.ok ⟨"TOKX", "TOKY", "MP", "MKT"⟩, Except.ok ⟨"MKTID"⟩,
     Except.ok ⟨1000, 1000, 25, 10000⟩, Except.ok 2039280, "SEEDSRC", "SEEDDST",
     Except.ok true, Except.ok "HASH", Except.error "rejected", none⟩
    ⟨"TOKX", "TOKY", "MP", "MKT"⟩ ⟨"MKTID"⟩ ⟨1000, 1000, 25, 10000⟩ 1007 2039280
    "HASH" "rejected" rfl rfl rfl rfl rfl rfl rfl rfl

end Listen
